import Mathlib

/-!
# kubedock dispatch layer: `internal/server/routes`

A shallow embedding of the request handlers of `containers.go` and `archive.go`
and of the route table of `main.go`.

* The entity store (`cr.db`) and the cluster backend (`cr.kub`) are interfaces
  whose implementations live outside these files.  They are taken as records of
  operations over an arbitrary world state `σ`; every operation maps a world to
  its Go return values and the world after the call.
* A handler maps a request context and a world to the world after the request
  and the trace of everything it did, in program order: every store and backend
  call with its arguments and results, every log line, and every response
  written to the client.
* A `*types.Container` is a value here.  Whatever an operation changes lives in
  the world; the handler keeps handing on the record it loaded.
-/

namespace Kubedock

/-! ## Go values -/

/-- A Go `error` value.  The spec's taxonomy separates the NotFound condition
from every other (storage-layer, transient, fatal) failure. -/
inductive GoError
  | notFound (msg : String)
  | other (msg : String)
  deriving DecidableEq, Repr

/-- The text of an error: `err.Error()`. -/
def GoError.Error : GoError → String
  | .notFound msg => msg
  | .other msg => msg

/-- Whether an error is the NotFound condition. -/
def GoError.isNotFound : GoError → Bool
  | .notFound _ => true
  | .other _ => false

/-- The record `types.Container`, with the fields the handlers read or write. -/
structure Container where
  ID : String
  Name : String
  Image : String
  Cmd : List String
  Env : List String
  ExposedPorts : List String
  Labels : List (String × String)
  Binds : List String
  Networks : List String
  MappedPorts : List (Int × Int)
  deriving DecidableEq, Repr

/-- The record `types.Network`, with the fields the handlers read. -/
structure Network where
  ID : String
  Name : String
  deriving DecidableEq, Repr

/-- The `HostConfig` part of a create request. -/
structure HostConfig where
  Binds : List String
  deriving DecidableEq, Repr

/-- The decoded body of `POST /containers/create`. -/
structure ContainerCreateRequest where
  Name : String
  Image : String
  Cmd : List String
  Env : List String
  ExposedPorts : List String
  Labels : List (String × String)
  HostConfig : HostConfig
  deriving DecidableEq, Repr

/-- Modelled from the spec: `Container.ConnectNetwork` is not among the source
files.  The spec makes network membership a set and membership changes
idempotent ("adding twice yields one membership"). -/
def Container.ConnectNetwork (co : Container) (id : String) : Container :=
  if id ∈ co.Networks then co else { co with Networks := co.Networks ++ [id] }

/-! ## JSON values and `gin.H` -/

/-- A JSON value, as handed to `c.JSON`. -/
inductive JSON
  | null
  | bool (b : Bool)
  | num (n : Int)
  | str (s : String)
  | arr (xs : List JSON)
  | obj (kvs : List (String × JSON))

/-- The map `gin.H` (`map[string]interface{}`): an association list in which
every key occurs at most once. -/
abbrev H := List (String × JSON)

/-- The map assignment `h[k] = v`: overwrite the entry of `k`, or add one. -/
def H.set : H → String → JSON → H
  | [], k, v => [(k, v)]
  | (k', v') :: rest, k, v =>
    if k' = k then (k, v) :: rest else (k', v') :: H.set rest k v

/-- The map lookup `h[k]`. -/
def H.get? : H → String → Option JSON
  | [], _ => none
  | (k', v') :: rest, k => if k' = k then some v' else H.get? rest k

/-- The keys of a map. -/
def H.keys (h : H) : List String := h.map Prod.fst

/-- Field access on a JSON object. -/
def JSON.field? : JSON → String → Option JSON
  | .obj kvs, k => H.get? kvs k
  | _, _ => none

/-- A `[]string` as a JSON array. -/
def JSON.ofStrings (xs : List String) : JSON := .arr (xs.map JSON.str)

/-- A `map[string]string` as a JSON object. -/
def JSON.ofStringMap (m : List (String × String)) : JSON :=
  .obj (m.map fun kv => (kv.1, JSON.str kv.2))

/-- The lookup `m[k]` on a `map[string]string`; an absent key (also on a nil
map) yields the empty string. -/
def lookupString (m : List (String × String)) (k : String) : String :=
  match m.find? (fun kv => kv.1 == k) with
  | some kv => kv.2
  | none => ""

/-! ## HTTP status codes (`net/http`)

The constants `http.StatusOK`, `http.StatusCreated`, ... of the Go standard
library. -/

def StatusOK : Nat := 200
def StatusCreated : Nat := 201
def StatusNoContent : Nat := 204
def StatusBadRequest : Nat := 400
def StatusNotFound : Nat := 404
def StatusConflict : Nat := 409
def StatusInternalServerError : Nat := 500

/-! ## Traces -/

/-- One observable step of a handler.  `panic` is a Go run-time panic: the
handler stops there and writes nothing more. -/
inductive Event
  | dbGetContainer (id : String) (res : Except GoError Container)
  | dbLoadContainer (id : String) (res : Except GoError Container)
  | dbGetNetworkByName (name : String) (res : Except GoError Network)
  | dbSaveContainer (tainr : Container) (res : Except GoError Container)
  | dbDeleteContainer (tainr : Container) (err : Option GoError)
  | dbGetNetworksByIDs (ids : List String) (netws : List Network) (err : Option GoError)
  | kubIsContainerRunning (tainr : Container) (running : Bool) (err : Option GoError)
  | kubStartContainer (tainr : Container) (err : Option GoError)
  | kubDeleteContainer (tainr : Container) (err : Option GoError)
  | kubGetContainerStatus (tainr : Container) (status : List (String × String))
      (err : Option GoError)
  | kubCopyToContainer (tainr : Container) (archive : List UInt8) (path : String)
      (err : Option GoError)
  | SignalStop (tainr : Container)
  | ReadAll (res : Except GoError (List UInt8))
  | klogWarning (msg : String)
  | panic (msg : String)
  | httputilError (status : Nat) (err : GoError)
  | cJSON (status : Nat) (body : JSON)
  | WriteHeader (status : Nat)

/-- The status code of an event that writes a response to the client:
`httputil.Error(c, status, err)`, `c.JSON(status, body)` and
`c.Writer.WriteHeader(status)`.  The package `httputil` is not among the source
files; `httputil.Error` is taken to write one response with the status and the
error it is given. -/
def Event.status? : Event → Option Nat
  | .httputilError status _ => some status
  | .cJSON status _ => some status
  | .WriteHeader status => some status
  | _ => none

/-- The status codes of the responses written along a trace, in order. -/
def responses (tr : List Event) : List Nat := tr.filterMap Event.status?

/-- Whether an event is a call of the backend's `StartContainer`. -/
def Event.isStartContainer : Event → Bool
  | .kubStartContainer _ _ => true
  | _ => false

/-- Whether an event is a call of the backend's `CopyToContainer`. -/
def Event.isCopyToContainer : Event → Bool
  | .kubCopyToContainer _ _ _ _ => true
  | _ => false

/-- Whether an event is a call of the store's `SaveContainer`. -/
def Event.isSaveContainer : Event → Bool
  | .dbSaveContainer _ _ => true
  | _ => false

/-- Whether an event is a call of the store's `DeleteContainer`. -/
def Event.isDbDeleteContainer : Event → Bool
  | .dbDeleteContainer _ _ => true
  | _ => false

/-- The outcome of running a handler: the world after it and its trace. -/
structure Run (σ : Type) where
  world : σ
  trace : List Event

/-! ## The collaborators -/

/-- The entity store `*model.Database`, as far as the handlers use it. -/
structure Database (σ : Type) where
  GetContainer : String → σ → Except GoError Container × σ
  LoadContainer : String → σ → Except GoError Container × σ
  /-- On success the record as stored, carrying the identifier it was given. -/
  SaveContainer : Container → σ → Except GoError Container × σ
  DeleteContainer : Container → σ → Option GoError × σ
  GetNetworkByName : String → σ → Except GoError Network × σ
  GetNetworksByIDs : List String → σ → (List Network × Option GoError) × σ

/-- The cluster adapter `backend.Backend`, as far as the handlers use it. -/
structure Backend (σ : Type) where
  IsContainerRunning : Container → σ → (Bool × Option GoError) × σ
  StartContainer : Container → σ → Option GoError × σ
  DeleteContainer : Container → σ → Option GoError × σ
  GetContainerStatus : Container → σ → (List (String × String) × Option GoError) × σ
  CopyToContainer : Container → List UInt8 → String → σ → Option GoError × σ

/-- The `Router` of `main.go`: the store and the backend.  `SignalStop` stands
for the method `(*types.Container).SignalStop`, which is not among the source
files and is therefore a parameter. -/
structure Router (σ : Type) where
  db : Database σ
  kub : Backend σ
  SignalStop : Container → σ → σ

/-- The parts of a `*gin.Context` the handlers read: path parameters, query
parameters, the outcome of `ioutil.ReadAll(c.Request.Body)` and the outcome of
`json.NewDecoder(c.Request.Body).Decode(&in)`.  The handler decodes into the
address of `in`, which is itself a pointer to the request record: a decode
without error leaves `in` pointing at a record (`some`), or nil when the body
is the JSON value `null` (`none`). -/
structure Context where
  params : List (String × String)
  query : List (String × String)
  body : Except GoError (List UInt8)
  decoded : Except GoError (Option ContainerCreateRequest)

/-- The call `c.Param(key)`. -/
def Context.Param (c : Context) (key : String) : String := lookupString c.params key

/-- The call `c.Query(key)`. -/
def Context.Query (c : Context) (key : String) : String := lookupString c.query key

/-- The function `strconv.ParseBool`. -/
def ParseBool (str : String) : Bool × Option GoError :=
  if str ∈ ["1", "t", "T", "TRUE", "true", "True"] then (true, none)
  else if str ∈ ["0", "f", "F", "FALSE", "false", "False"] then (false, none)
  else (false, some (.other "strconv.ParseBool: invalid syntax"))

/-! ## `containers.go` -/

/-- The handler `ContainerCreate`: `POST /containers/create`.  With `in` nil the
first field read, `in.Name`, panics before any store call. -/
def ContainerCreate {σ : Type} (cr : Router σ) (c : Context) (w : σ) : Run σ :=
  match c.decoded with
  | .error err => ⟨w, [.httputilError StatusInternalServerError err]⟩
  | .ok none =>
    ⟨w, [.panic "runtime error: invalid memory address or nil pointer dereference"]⟩
  | .ok (some req) =>
    let tainr : Container :=
      { ID := "", Name := req.Name, Image := req.Image, Cmd := req.Cmd, Env := req.Env,
        ExposedPorts := req.ExposedPorts, Labels := req.Labels,
        Binds := req.HostConfig.Binds, Networks := [], MappedPorts := [] }
    let r1 := cr.db.GetNetworkByName "bridge" w
    let tr1 := [Event.dbGetNetworkByName "bridge" r1.1]
    match r1.1 with
    | .error err => ⟨r1.2, tr1 ++ [.httputilError StatusInternalServerError err]⟩
    | .ok netw =>
      let tainr := tainr.ConnectNetwork netw.ID
      let r2 := cr.db.SaveContainer tainr r1.2
      let tr2 := tr1 ++ [Event.dbSaveContainer tainr r2.1]
      match r2.1 with
      | .error err => ⟨r2.2, tr2 ++ [.httputilError StatusInternalServerError err]⟩
      | .ok saved => ⟨r2.2, tr2 ++ [.cJSON StatusCreated (.obj [("Id", .str saved.ID)])]⟩

/-- The handler `ContainerStart`: `POST /containers/:id/start`. -/
def ContainerStart {σ : Type} (cr : Router σ) (c : Context) (w : σ) : Run σ :=
  let id := c.Param "id"
  let r1 := cr.db.GetContainer id w
  let tr1 := [Event.dbGetContainer id r1.1]
  match r1.1 with
  | .error err => ⟨r1.2, tr1 ++ [.httputilError StatusNotFound err]⟩
  | .ok tainr =>
    let r2 := cr.kub.IsContainerRunning tainr r1.2
    let tr2 := tr1 ++ [Event.kubIsContainerRunning tainr r2.1.1 r2.1.2]
    if !r2.1.1 then
      let r3 := cr.kub.StartContainer tainr r2.2
      let tr3 := tr2 ++ [Event.kubStartContainer tainr r3.1]
      match r3.1 with
      | some err => ⟨r3.2, tr3 ++ [.httputilError StatusInternalServerError err]⟩
      | none => ⟨r3.2, tr3 ++ [.WriteHeader StatusNoContent]⟩
    else
      ⟨r2.2, tr2 ++ [.klogWarning ("container " ++ id ++ " already running"),
        .WriteHeader StatusNoContent]⟩

/-- The handler `ContainerDelete`: `DELETE /containers/:id`. -/
def ContainerDelete {σ : Type} (cr : Router σ) (c : Context) (w : σ) : Run σ :=
  let id := c.Param "id"
  let r1 := cr.db.GetContainer id w
  let tr1 := [Event.dbGetContainer id r1.1]
  match r1.1 with
  | .error err => ⟨r1.2, tr1 ++ [.httputilError StatusNotFound err]⟩
  | .ok tainr =>
    let w2 := cr.SignalStop tainr r1.2
    let tr2 := tr1 ++ [Event.SignalStop tainr]
    let r3 := cr.kub.DeleteContainer tainr w2
    let tr3 := tr2 ++ [Event.kubDeleteContainer tainr r3.1]
    match r3.1 with
    | some err => ⟨r3.2, tr3 ++ [.httputilError StatusInternalServerError err]⟩
    | none =>
      let r4 := cr.db.DeleteContainer tainr r3.2
      let tr4 := tr3 ++ [Event.dbDeleteContainer tainr r4.1]
      match r4.1 with
      | some err => ⟨r4.2, tr4 ++ [.httputilError StatusNotFound err]⟩
      | none => ⟨r4.2, tr4 ++ [.WriteHeader StatusNoContent]⟩

/-- The function `getNetworkSettingsPorts`.  `MappedPorts` is a Go map from the
external port to the container port; the list holds its entries in the order in
which `range` yields them. -/
def getNetworkSettingsPorts (tainr : Container) : H :=
  tainr.MappedPorts.foldl
    (fun res sd =>
      H.set res (toString sd.2 ++ "/tcp")
        (.arr [.obj [("HostIp", .str "localhost"), ("HostPort", .str (toString sd.1))]]))
    []

/-- The function `getContainerInfo`: the description of a container, the world
after the two lookups and their trace. -/
def getContainerInfo {σ : Type} (cr : Router σ) (tainr : Container) (detail : Bool) (w : σ) :
    H × Run σ :=
  let errstr := ""
  let r1 := cr.kub.GetContainerStatus tainr w
  let status := r1.1.1
  let errstr := match r1.1.2 with
    | some err => errstr ++ err.Error
    | none => errstr
  let r2 := cr.db.GetNetworksByIDs tainr.Networks r1.2
  let errstr := match r2.1.2 with
    | some err => errstr ++ err.Error
    | none => errstr
  let netws : H := r2.1.1.foldl
    (fun netws netw =>
      H.set netws netw.Name (.obj [("NetworkID", .str netw.ID), ("IPAddress", .str "127.0.0.1")]))
    []
  let res : H := [
    ("Id", .str tainr.ID),
    ("Image", .str tainr.Image),
    ("Config", .obj [
      ("Image", .str tainr.Image),
      ("Labels", JSON.ofStringMap tainr.Labels),
      ("Env", JSON.ofStrings tainr.Env),
      ("Cmd", JSON.ofStrings tainr.Cmd)]),
    ("Names", JSON.ofStrings [tainr.ID]),
    ("NetworkSettings", .obj [
      ("Networks", .obj netws),
      ("Ports", .obj (getNetworkSettingsPorts tainr))]),
    ("HostConfig", .obj [("NetworkMode", .str "host")])]
  let res : H :=
    if detail then
      H.set res "State" (.obj [
        ("Health", .obj [("Status", .str (lookupString status "Status"))]),
        ("Running", .bool (lookupString status "Running" == "running")),
        ("Status", .str (lookupString status "Running")),
        ("Paused", .bool false),
        ("Restarting", .bool false),
        ("OOMKilled", .bool false),
        ("Dead", .bool false),
        ("StartedAt", .str "2021-01-01T00:00:00Z"),
        ("FinishedAt", .str "0001-01-01T00:00:00Z"),
        ("ExitCode", .num 0),
        ("Error", .str errstr)])
    else
      H.set res "State" (.str (lookupString status "Status"))
  (res, ⟨r2.2, [Event.kubGetContainerStatus tainr r1.1.1 r1.1.2,
    Event.dbGetNetworksByIDs tainr.Networks r2.1.1 r2.1.2]⟩)

/-- The handler `ContainerInfo`: `GET /containers/:id/json`. -/
def ContainerInfo {σ : Type} (cr : Router σ) (c : Context) (w : σ) : Run σ :=
  let id := c.Param "id"
  let r1 := cr.db.GetContainer id w
  let tr1 := [Event.dbGetContainer id r1.1]
  match r1.1 with
  | .error err => ⟨r1.2, tr1 ++ [.httputilError StatusNotFound err]⟩
  | .ok tainr =>
    let info := getContainerInfo cr tainr true r1.2
    ⟨info.2.world, tr1 ++ info.2.trace ++ [.cJSON StatusOK (.obj info.1)]⟩

/-! ## `archive.go` -/

/-- The handler `PutArchive`: `PUT /containers/:id/archive`.  This file reaches
the store through `LoadContainer` and the backend through the field it calls
`kubernetes`; the backend is the router's one backend. -/
def PutArchive {σ : Type} (cr : Router σ) (c : Context) (w : σ) : Run σ :=
  let id := c.Param "id"
  let path := c.Query "path"
  if path = "" then
    ⟨w, [.httputilError StatusBadRequest (.other "missing required path parameter")]⟩
  else
    let ovw := (ParseBool (c.Query "noOverwriteDirNonDir")).1
    let tr0 : List Event :=
      if ovw then [.klogWarning "noOverwriteDirNonDir is not supported, ignoring setting."]
      else []
    let cgid := (ParseBool (c.Query "copyUIDGID")).1
    let tr0 : List Event :=
      if cgid then tr0 ++ [.klogWarning "copyUIDGID is not supported, ignoring setting."]
      else tr0
    let r1 := cr.db.LoadContainer id w
    let tr1 := tr0 ++ [Event.dbLoadContainer id r1.1]
    match r1.1 with
    | .error err => ⟨r1.2, tr1 ++ [.httputilError StatusNotFound err]⟩
    | .ok tainr =>
      let r2 := cr.kub.IsContainerRunning tainr r1.2
      let tr2 := tr1 ++ [Event.kubIsContainerRunning tainr r2.1.1 r2.1.2]
      let r3 : Option GoError × σ :=
        if !r2.1.1 then cr.kub.StartContainer tainr r2.2 else (none, r2.2)
      let tr3 : List Event :=
        if !r2.1.1 then tr2 ++ [Event.kubStartContainer tainr r3.1] else tr2
      match r3.1 with
      | some err => ⟨r3.2, tr3 ++ [.httputilError StatusInternalServerError err]⟩
      | none =>
        let tr4 := tr3 ++ [Event.ReadAll c.body]
        match c.body with
        | .error err => ⟨r3.2, tr4 ++ [.httputilError StatusNotFound err]⟩
        | .ok archive =>
          let r5 := cr.kub.CopyToContainer tainr archive path r3.2
          let tr5 := tr4 ++ [Event.kubCopyToContainer tainr archive path r5.1]
          match r5.1 with
          | some err => ⟨r5.2, tr5 ++ [.httputilError StatusInternalServerError err]⟩
          | none =>
            ⟨r5.2, tr5 ++ [.cJSON StatusOK
              (.obj [("message", .str "archive copied succesfully to container")])]⟩

/-! ## `main.go`: the route table -/

/-- The HTTP methods used by `initRoutes`. -/
inductive Method
  | GET | POST | PUT | DELETE | HEAD
  deriving DecidableEq, Repr

/-- The handlers bound by `initRoutes`; `NotImplemented` is
`httputil.NotImplemented`. -/
inductive Handler
  | ContainerCreate | ContainerStart | NetworksCreate | NetworksConnect | NetworksDisconnect
  | ContainerList | ContainerInfo | ContainerDelete | ContainerExec | ContainerLogs
  | ExecStart | ExecInfo | PutArchive | NetworksList | NetworksDelete | NetworksInfo
  | ImageList | ImageCreate | ImageJSON | Ping | Info | Version | Healthz
  | NotImplemented
  deriving DecidableEq, Repr

/-- One registration `router.METHOD(path, handler)`. -/
structure Route where
  method : Method
  path : String
  handler : Handler
  deriving DecidableEq, Repr

/-- The registrations of `initRoutes`, in source order. -/
def initRoutes : List Route := [
  ⟨.POST, "/containers/create", .ContainerCreate⟩,
  ⟨.POST, "/containers/:id/start", .ContainerStart⟩,
  ⟨.POST, "/networks/create", .NetworksCreate⟩,
  ⟨.POST, "/networks/:id/connect", .NetworksConnect⟩,
  ⟨.POST, "/networks/:id/disconnect", .NetworksDisconnect⟩,
  ⟨.GET, "/containers/json", .ContainerList⟩,
  ⟨.GET, "/containers/:id/json", .ContainerInfo⟩,
  ⟨.DELETE, "/containers/:id", .ContainerDelete⟩,
  ⟨.POST, "/containers/:id/exec", .ContainerExec⟩,
  ⟨.GET, "/containers/:id/logs", .ContainerLogs⟩,
  ⟨.POST, "/exec/:id/start", .ExecStart⟩,
  ⟨.GET, "/exec/:id/json", .ExecInfo⟩,
  ⟨.PUT, "/containers/:id/archive", .PutArchive⟩,
  ⟨.GET, "/networks", .NetworksList⟩,
  ⟨.DELETE, "/networks/:id", .NetworksDelete⟩,
  ⟨.GET, "/networks/:id", .NetworksInfo⟩,
  ⟨.GET, "/images/json", .ImageList⟩,
  ⟨.POST, "/images/create", .ImageCreate⟩,
  ⟨.GET, "/images/:image/*json", .ImageJSON⟩,
  ⟨.GET, "/_ping", .Ping⟩,
  ⟨.HEAD, "/_ping", .Ping⟩,
  ⟨.GET, "/info", .Info⟩,
  ⟨.GET, "/version", .Version⟩,
  ⟨.GET, "/healthz", .Healthz⟩,
  ⟨.POST, "/containers/:id/stop", .NotImplemented⟩,
  ⟨.POST, "/containers/:id/kill", .NotImplemented⟩,
  ⟨.GET, "/containers/:id/top", .NotImplemented⟩,
  ⟨.GET, "/containers/:id/changes", .NotImplemented⟩,
  ⟨.GET, "/containers/:id/export", .NotImplemented⟩,
  ⟨.GET, "/containers/:id/stats", .NotImplemented⟩,
  ⟨.POST, "/containers/:id/resize", .NotImplemented⟩,
  ⟨.POST, "/containers/:id/restart", .NotImplemented⟩,
  ⟨.POST, "/containers/:id/update", .NotImplemented⟩,
  ⟨.POST, "/containers/:id/rename", .NotImplemented⟩,
  ⟨.POST, "/containers/:id/pause", .NotImplemented⟩,
  ⟨.POST, "/containers/:id/unpause", .NotImplemented⟩,
  ⟨.POST, "/containers/:id/attach", .NotImplemented⟩,
  ⟨.GET, "/containers/:id/attach/ws", .NotImplemented⟩,
  ⟨.POST, "/containers/:id/wait", .NotImplemented⟩,
  ⟨.HEAD, "/containers/:id/archive", .NotImplemented⟩,
  ⟨.GET, "/containers/:id/archive", .NotImplemented⟩,
  ⟨.POST, "/containers/prune", .NotImplemented⟩,
  ⟨.GET, "/networks/reaper_default", .NotImplemented⟩]

/-- Split a path at every `/`; `cur` holds the current segment, reversed. -/
def splitSlash : List Char → List Char → List String
  | [], cur => [String.mk cur.reverse]
  | ch :: rest, cur =>
    if ch = '/' then String.mk cur.reverse :: splitSlash rest []
    else splitSlash rest (ch :: cur)

/-- The segments of a route path; the leading `/` gives an empty first one. -/
def segments (path : String) : List String := splitSlash path.data []

/-- A segment is literal when it is neither a `:name` parameter nor a `*name`
catch-all. -/
def isLiteral (seg : String) : Bool :=
  match seg.data with
  | [] => true
  | ch :: _ => ch != ':' && ch != '*'

/-- Whether a segment begins with the character `ch`. -/
def beginsWith (seg : String) (ch : Char) : Bool := seg.data.head? == some ch

/-- Two routes of the same method share the path prefix of length `i`, and at
position `i` the first has the literal segment `lit` where the second has the
parameter `:id`. -/
def overlapAt (r1 r2 : Route) (i : Nat) (lit : String) : Prop :=
  r1.method = r2.method ∧ (segments r1.path).take i = (segments r2.path).take i ∧
  (segments r1.path)[i]? = some lit ∧ isLiteral lit = true ∧
  (segments r2.path)[i]? = some ":id"

instance (r1 r2 : Route) (i : Nat) (lit : String) : Decidable (overlapAt r1 r2 i lit) := by
  unfold overlapAt; infer_instance

/-- The paths of the verbs the spec lists as unsupported: pause, restart, attach
and stats. -/
def unsupportedPaths : List String := [
  "/containers/:id/pause", "/containers/:id/unpause", "/containers/:id/restart",
  "/containers/:id/attach", "/containers/:id/attach/ws", "/containers/:id/stats"]

/-! ## Notions used in the statements -/

/-- The field `State.<key>` of a container description. -/
def stateField (body : H) (key : String) : Option JSON :=
  (H.get? body "State").bind fun st => st.field? key

/-- The text an optional error contributes to `errstr`. -/
def errorText : Option GoError → String
  | some err => err.Error
  | none => ""

/-- The key `fmt.Sprintf("%d/tcp", dst)` of a container port. -/
def portKey (dst : Int) : String := toString dst ++ "/tcp"

/-- The value stored for an external port:
`[]gin.H{{"HostIp": "localhost", "HostPort": fmt.Sprintf("%d", src)}}`. -/
def portBinding (src : Int) : JSON :=
  .arr [.obj [("HostIp", .str "localhost"), ("HostPort", .str (toString src))]]

/-- The loop of `getNetworkSettingsPorts`, started from an arbitrary map. -/
def portsFrom (acc : H) (mp : List (Int × Int)) : H :=
  mp.foldl
    (fun res sd =>
      H.set res (toString sd.2 ++ "/tcp")
        (.arr [.obj [("HostIp", .str "localhost"), ("HostPort", .str (toString sd.1))]]))
    acc

/-- The value of a decimal digit character. -/
def digitValue (ch : Char) : Nat := ch.toNat - 48

/-- The number a list of decimal digits denotes, continuing from `acc`. -/
def digitsValue (acc : Nat) (l : List Char) : Nat :=
  l.foldl (fun a ch => 10 * a + digitValue ch) acc

/-! ## A concrete store and backend

An in-memory store and a backend that keeps the set of running identifiers; the
theorems below are instantiated on it. -/

/-- The world of the in-memory collaborators. -/
structure MemWorld where
  containers : List Container
  networks : List Network
  running : List String
  /-- The storage layer is failing. -/
  broken : Bool
  /-- The cluster refuses to delete pods. -/
  stuck : Bool
  deriving DecidableEq, Repr

/-- Look a container up by identifier. -/
def memFind (id : String) (w : MemWorld) : Except GoError Container × MemWorld :=
  if w.broken then (.error (.other "storage unavailable"), w)
  else match w.containers.find? (fun t => t.ID == id) with
    | some t => (.ok t, w)
    | none => (.error (.notFound ("container " ++ id ++ " not found")), w)

/-- The in-memory entity store. -/
def memDatabase : Database MemWorld where
  GetContainer := memFind
  LoadContainer := memFind
  SaveContainer := fun t w =>
    if w.broken then (.error (.other "storage unavailable"), w)
    else
      let saved := { t with ID := "a" ++ toString w.containers.length }
      (.ok saved, { w with containers := w.containers ++ [saved] })
  DeleteContainer := fun t w =>
    if w.broken then (some (.other "storage unavailable"), w)
    else if w.containers.any (fun x => x.ID == t.ID) then
      (none, { w with containers := w.containers.filter (fun x => x.ID != t.ID) })
    else (some (.notFound ("container " ++ t.ID ++ " not found")), w)
  GetNetworkByName := fun name w =>
    match w.networks.find? (fun n => n.Name == name) with
    | some n => (.ok n, w)
    | none => (.error (.notFound ("network " ++ name ++ " not found")), w)
  GetNetworksByIDs := fun ids w => ((w.networks.filter (fun n => ids.contains n.ID), none), w)

/-- The in-memory backend. -/
def memBackend : Backend MemWorld where
  IsContainerRunning := fun t w => ((w.running.contains t.ID, none), w)
  StartContainer := fun t w =>
    if t.Image = "" then (some (.other "image missing"), w)
    else (none, { w with running := t.ID :: w.running })
  DeleteContainer := fun t w =>
    if w.stuck then (some (.other "timeout waiting for pod removal"), w)
    else (none, { w with running := w.running.filter (fun x => x != t.ID) })
  GetContainerStatus := fun t w =>
    if w.running.contains t.ID then (([("Status", "healthy"), ("Running", "running")], none), w)
    else (([], some (.notFound ("pod " ++ t.ID ++ " not found"))), w)
  CopyToContainer := fun t _ _ w =>
    if w.running.contains t.ID then (none, w)
    else (some (.other "container not running"), w)

/-- The router over the in-memory collaborators. -/
def memRouter : Router MemWorld where
  db := memDatabase
  kub := memBackend
  SignalStop := fun _ w => w

/-- A container as the store holds it after a create. -/
def demoContainer : Container :=
  { ID := "a1", Name := "web", Image := "busybox", Cmd := ["sleep", "60"], Env := [],
    ExposedPorts := ["80/tcp"], Labels := [], Binds := [], Networks := ["b0"],
    MappedPorts := [(30080, 80)] }

/-- The default network. -/
def bridgeNetwork : Network := { ID := "b0", Name := "bridge" }

/-- A world holding `demoContainer`, created but not started. -/
def demoWorld : MemWorld :=
  { containers := [demoContainer], networks := [bridgeNetwork], running := [],
    broken := false, stuck := false }

/-- A request naming `demoContainer`, with a destination path and a small body. -/
def demoContext : Context :=
  { params := [("id", "a1")], query := [("path", "/tmp")], body := .ok [1, 2, 3],
    decoded := .ok (some
      { Name := "web", Image := "busybox", Cmd := ["sleep", "60"], Env := [],
        ExposedPorts := ["80/tcp"], Labels := [], HostConfig := { Binds := [] } }) }

/-- The request `demoContext` with the JSON value `null` as its body: the
decode returns no error and leaves the request pointer nil. -/
def nullBodyContext : Context :=
  { demoContext with body := .ok [110, 117, 108, 108], decoded := .ok none }

/-- The world `demoWorld` with `demoContainer` already running. -/
def runningWorld : MemWorld := { demoWorld with running := ["a1"] }

/-- A container without an image, which the in-memory backend fails to start. -/
def imagelessContainer : Container := { demoContainer with Image := "" }

/-- A world holding `imagelessContainer`, created but not started. -/
def imagelessWorld : MemWorld := { demoWorld with containers := [imagelessContainer] }

/-- The world `demoWorld` with no container in the store. -/
def emptyWorld : MemWorld := { demoWorld with containers := [] }

/-- The world `demoWorld` with a failing storage layer. -/
def brokenWorld : MemWorld := { demoWorld with broken := true }

/-- The world `demoWorld` with a cluster that refuses to delete pods. -/
def stuckWorld : MemWorld := { demoWorld with stuck := true }

/-- The world `demoWorld` without the default network. -/
def noBridgeWorld : MemWorld := { demoWorld with networks := [] }

/-- A container whose two external ports lead to the same container port. -/
def sharedPortContainer : Container :=
  { demoContainer with MappedPorts := [(30080, 80), (30081, 80)] }

end Kubedock

namespace Kubedock

/-! ## The route table (C8, C9) -/

/-- No route path has more than five segments. -/
theorem segments_length_le : ∀ r ∈ initRoutes, (segments r.path).length ≤ 5 := by
  decide

set_option maxRecDepth 1000000 in
/-- The overlaps of the route table, position by position. -/
theorem overlap_literals_bounded :
    ∀ r1 ∈ initRoutes, ∀ r2 ∈ initRoutes, ∀ i < 5, ∀ lit ∈ segments r1.path,
      overlapAt r1 r2 i lit →
        lit ∈ ["create", "json", "prune", "reaper_default"] ∧
        (beginsWith lit 'c' = true ↔ lit = "create") ∧
        (beginsWith lit 'c' = true ∨ beginsWith lit 'j' = true ∨
          beginsWith lit 'p' = true ∨ beginsWith lit 'r' = true) := by
  decide!

/-- C8, as amended: whenever two routes of `initRoutes` with the same method
share a path prefix and one has a literal segment where the other has `:id`,
that literal is one of `create`, `json`, `prune` and `reaper_default`; it
begins with `c` exactly when it is `create`, and always with one of `c`, `j`,
`p` and `r`. -/
theorem C8_overlap_literals (r1 r2 : Route) (i : Nat) (lit : String)
    (h1 : r1 ∈ initRoutes) (h2 : r2 ∈ initRoutes) (h : overlapAt r1 r2 i lit) :
    lit ∈ ["create", "json", "prune", "reaper_default"] ∧
    (beginsWith lit 'c' = true ↔ lit = "create") ∧
    (beginsWith lit 'c' = true ∨ beginsWith lit 'j' = true ∨
      beginsWith lit 'p' = true ∨ beginsWith lit 'r' = true) := by
  have hget : (segments r1.path)[i]? = some lit := h.2.2.1
  obtain ⟨hlt, hval⟩ := List.getElem?_eq_some.mp hget
  have hi : i < 5 := lt_of_lt_of_le hlt (segments_length_le r1 h1)
  have hmem : lit ∈ segments r1.path := hval ▸ List.getElem_mem hlt
  exact overlap_literals_bounded r1 h1 r2 h2 i hi lit hmem h

/-- C8 witness: the overlap of `POST /containers/create` with
`POST /containers/:id/start`. -/
theorem C8_overlap_literals_witness :
    overlapAt ⟨.POST, "/containers/create", .ContainerCreate⟩
      ⟨.POST, "/containers/:id/start", .ContainerStart⟩ 2 "create" ∧
    ("create" ∈ ["create", "json", "prune", "reaper_default"] ∧
      (beginsWith "create" 'c' = true ↔ "create" = "create") ∧
      (beginsWith "create" 'c' = true ∨ beginsWith "create" 'j' = true ∨
        beginsWith "create" 'p' = true ∨ beginsWith "create" 'r' = true)) :=
  ⟨by decide,
    C8_overlap_literals ⟨.POST, "/containers/create", .ContainerCreate⟩
      ⟨.POST, "/containers/:id/start", .ContainerStart⟩ 2 "create"
      (by decide) (by decide) (by decide)⟩

/-- C8 counterexample: `GET /containers/json` and `GET /containers/:id/json` are
both registered, share the prefix `/containers/`, and the literal `json` stands
where the other route has `:id`; `json` does not begin with `c`. -/
theorem C8_counterexample :
    (⟨.GET, "/containers/json", .ContainerList⟩ : Route) ∈ initRoutes ∧
    (⟨.GET, "/containers/:id/json", .ContainerInfo⟩ : Route) ∈ initRoutes ∧
    overlapAt ⟨.GET, "/containers/json", .ContainerList⟩
      ⟨.GET, "/containers/:id/json", .ContainerInfo⟩ 2 "json" ∧
    beginsWith "json" 'c' = false := by
  decide

/-- C9: every route of `initRoutes` on one of the pause, unpause, restart,
attach, attach/ws and stats paths is bound to `NotImplemented`; each of these
paths is registered; and no (method, path) pair is registered twice. -/
theorem C9_unsupported_verbs :
    (∀ r ∈ initRoutes, r.path ∈ unsupportedPaths → r.handler = .NotImplemented) ∧
    (∀ p ∈ unsupportedPaths, ∃ r ∈ initRoutes, r.path = p) ∧
    (initRoutes.map fun r => (r.method, r.path)).Nodup := by
  decide

/-- C9 witness: the pause route. -/
theorem C9_unsupported_verbs_witness :
    (⟨.POST, "/containers/:id/pause", .NotImplemented⟩ : Route).handler = .NotImplemented :=
  C9_unsupported_verbs.1 ⟨.POST, "/containers/:id/pause", .NotImplemented⟩
    (by decide) (by decide)

/-! ## The in-memory store -/

/-- A lookup in the in-memory store leaves the world as it is. -/
theorem memFind_world (id : String) (w0 : MemWorld) : (memFind id w0).2 = w0 := by
  unfold memFind
  split
  · rfl
  · split <;> rfl

/-- The result of a lookup in the in-memory store depends on the stored
containers and on the health of the storage layer only. -/
theorem memFind_result (id : String) (w0 w1 : MemWorld) (hb : w1.broken = w0.broken)
    (hc : w1.containers = w0.containers) : (memFind id w1).1 = (memFind id w0).1 := by
  unfold memFind
  rw [hb, hc]
  split
  · rfl
  · split <;> rfl

/-! ## `ContainerStart` (C1) -/

/-- C1, as amended: for a container the store holds, (1) when
`IsContainerRunning` reports true, `ContainerStart` makes no `StartContainer`
call and answers 204 and nothing else; (2) when the first request finds the
container not running and its `StartContainer` returns no error, over a
backend in which a successful `StartContainer` makes `IsContainerRunning` report
true for that identifier (`hstart`) and loads from the store leave that answer
alone (`hframe`), a second `ContainerStart` for the same container makes no
further call: the two requests together call `StartContainer` exactly once and
both answer 204. -/
theorem C1_start_idempotent {σ : Type} (cr : Router σ) (c : Context) (w w1 : σ)
    (tainr : Container)
    (hload : cr.db.GetContainer (c.Param "id") w = (.ok tainr, w1)) :
    (∀ rerr w2, cr.kub.IsContainerRunning tainr w1 = ((true, rerr), w2) →
      (ContainerStart cr c w).trace.countP Event.isStartContainer = 0 ∧
      responses (ContainerStart cr c w).trace = [StatusNoContent] ∧
      (ContainerStart cr c w).world = w2) ∧
    (∀ rerr w2 w3, cr.kub.IsContainerRunning tainr w1 = ((false, rerr), w2) →
      cr.kub.StartContainer tainr w2 = (none, w3) →
      (∀ t w0, (cr.kub.StartContainer t w0).1 = none → ∀ t2, t2.ID = t.ID →
        (cr.kub.IsContainerRunning t2 (cr.kub.StartContainer t w0).2).1.1 = true) →
      (∀ id t w0, (cr.kub.IsContainerRunning t (cr.db.GetContainer id w0).2).1.1 =
        (cr.kub.IsContainerRunning t w0).1.1) →
      ∀ tainr2 w4, cr.db.GetContainer (c.Param "id") w3 = (.ok tainr2, w4) →
        tainr2.ID = tainr.ID →
        (ContainerStart cr c w).world = w3 ∧
        ((ContainerStart cr c w).trace ++ (ContainerStart cr c w3).trace).countP
          Event.isStartContainer = 1 ∧
        responses (ContainerStart cr c w).trace = [StatusNoContent] ∧
        responses (ContainerStart cr c w3).trace = [StatusNoContent]) := by
  constructor
  · intro rerr w2 hrun
    simp [ContainerStart, hload, hrun, responses, Event.status?, Event.isStartContainer]
  · intro rerr w2 w3 hrun hok hstart hframe tainr2 w4 hload2 hsame
    have htr1 : (ContainerStart cr c w).trace =
        [Event.dbGetContainer (c.Param "id") (.ok tainr),
          Event.kubIsContainerRunning tainr false rerr,
          Event.kubStartContainer tainr none,
          Event.WriteHeader StatusNoContent] := by
      simp [ContainerStart, hload, hrun, hok]
    have hrun2 : (cr.kub.IsContainerRunning tainr2 w4).1.1 = true := by
      have h3 : w3 = (cr.kub.StartContainer tainr w2).2 := by rw [hok]
      have h4 : w4 = (cr.db.GetContainer (c.Param "id") w3).2 := by rw [hload2]
      rw [h4, hframe, h3]
      exact hstart tainr w2 (by rw [hok]) tainr2 hsame
    have htr2 : (ContainerStart cr c w3).trace =
        [Event.dbGetContainer (c.Param "id") (.ok tainr2),
          Event.kubIsContainerRunning tainr2 true (cr.kub.IsContainerRunning tainr2 w4).1.2,
          Event.klogWarning ("container " ++ c.Param "id" ++ " already running"),
          Event.WriteHeader StatusNoContent] := by
      simp [ContainerStart, hload2, hrun2]
    refine ⟨by simp [ContainerStart, hload, hrun, hok], ?_, ?_, ?_⟩
    · rw [htr1, htr2]
      simp [Event.isStartContainer, List.countP_cons]
    · rw [htr1]
      simp [responses, Event.status?]
    · rw [htr2]
      simp [responses, Event.status?]

/-- The in-memory backend reports a container as running once it has started
it. -/
theorem memBackend_start_running (t : Container) (w0 : MemWorld)
    (h : (memRouter.kub.StartContainer t w0).1 = none) (t2 : Container) (h2 : t2.ID = t.ID) :
    (memRouter.kub.IsContainerRunning t2 (memRouter.kub.StartContainer t w0).2).1.1 = true := by
  simp only [memRouter, memBackend] at h ⊢
  split at h
  · simp at h
  · simp_all

/-- C1 witness: two starts of `demoContainer` on the in-memory backend. -/
theorem C1_start_idempotent_witness :
    ((ContainerStart memRouter demoContext demoWorld).trace ++
      (ContainerStart memRouter demoContext
        (ContainerStart memRouter demoContext demoWorld).world).trace).countP
          Event.isStartContainer = 1 ∧
    responses (ContainerStart memRouter demoContext demoWorld).trace = [StatusNoContent] ∧
    responses (ContainerStart memRouter demoContext
      (ContainerStart memRouter demoContext demoWorld).world).trace = [StatusNoContent] :=
  ((C1_start_idempotent memRouter demoContext demoWorld demoWorld demoContainer
      (by rfl)).2 none demoWorld (memRouter.kub.StartContainer demoContainer demoWorld).2
    (by rfl) (by rfl) memBackend_start_running
    (by
      intro id t w0
      simp only [memRouter, memDatabase, memFind_world])
    demoContainer (memRouter.kub.StartContainer demoContainer demoWorld).2
    (by rfl) rfl).2

/-- C1 counterexample: the in-memory backend reports a container as running
once it has started it, and `demoContainer` is in the store; yet two sequential
starts of a container that is already running call `StartContainer` not at all,
and two sequential starts of a container whose start fails call it twice and
answer 500 both times. -/
theorem C1_counterexample :
    (∀ t w0, (memRouter.kub.StartContainer t w0).1 = none → ∀ t2, t2.ID = t.ID →
      (memRouter.kub.IsContainerRunning t2 (memRouter.kub.StartContainer t w0).2).1.1 = true) ∧
    (memRouter.db.GetContainer (demoContext.Param "id") runningWorld).1 = .ok demoContainer ∧
    ((ContainerStart memRouter demoContext runningWorld).trace ++
      (ContainerStart memRouter demoContext
        (ContainerStart memRouter demoContext runningWorld).world).trace).countP
          Event.isStartContainer = 0 ∧
    (memRouter.db.GetContainer (demoContext.Param "id") imagelessWorld).1 =
      .ok imagelessContainer ∧
    ((ContainerStart memRouter demoContext imagelessWorld).trace ++
      (ContainerStart memRouter demoContext
        (ContainerStart memRouter demoContext imagelessWorld).world).trace).countP
          Event.isStartContainer = 2 ∧
    responses (ContainerStart memRouter demoContext imagelessWorld).trace =
      [StatusInternalServerError] ∧
    responses (ContainerStart memRouter demoContext
      (ContainerStart memRouter demoContext imagelessWorld).world).trace =
      [StatusInternalServerError] :=
  ⟨memBackend_start_running, by rfl, by decide, by rfl, by decide, by decide, by decide⟩

/-! ## `PutArchive` (C2, C4) -/

/-- C2, as amended: for a `PutArchive` request with a non-empty path whose
container the store holds and the backend reports as not running, the handler
calls `StartContainer` once and never answers 409 Conflict; when that start
fails it answers 500 without calling `CopyToContainer`; when it succeeds and the
body is read, `CopyToContainer` is called once and the answer is 200 exactly
when the copy returns no error. -/
theorem C2_put_archive_starts_container {σ : Type} (cr : Router σ) (c : Context) (w w1 w2 w3 : σ)
    (tainr : Container) (rerr serr : Option GoError) (hpath : c.Query "path" ≠ "")
    (hload : cr.db.LoadContainer (c.Param "id") w = (.ok tainr, w1))
    (hrun : cr.kub.IsContainerRunning tainr w1 = ((false, rerr), w2))
    (hstart : cr.kub.StartContainer tainr w2 = (serr, w3)) :
    (PutArchive cr c w).trace.countP Event.isStartContainer = 1 ∧
    StatusConflict ∉ responses (PutArchive cr c w).trace ∧
    (serr ≠ none →
      responses (PutArchive cr c w).trace = [StatusInternalServerError] ∧
      (PutArchive cr c w).trace.countP Event.isCopyToContainer = 0) ∧
    (serr = none → ∀ archive, c.body = .ok archive →
        (PutArchive cr c w).trace.countP Event.isCopyToContainer = 1 ∧
        (responses (PutArchive cr c w).trace = [StatusOK] ↔
          (cr.kub.CopyToContainer tainr archive (c.Query "path") w3).1 = none)) := by
  unfold PutArchive
  simp only [hpath, hload, hrun, hstart, if_false]
  generalize (ParseBool (c.Query "noOverwriteDirNonDir")).1 = ovw
  generalize (ParseBool (c.Query "copyUIDGID")).1 = cgid
  cases serr with
  | some e =>
    cases ovw <;> cases cgid <;>
      simp [responses, Event.status?, Event.isStartContainer, Event.isCopyToContainer,
        StatusConflict, StatusInternalServerError, List.countP_cons]
  | none =>
    cases hb : c.body with
    | error e =>
      cases ovw <;> cases cgid <;>
        simp [responses, Event.status?, Event.isStartContainer, Event.isCopyToContainer,
          StatusConflict, StatusNotFound, List.countP_cons]
    | ok archive =>
      cases hc : (cr.kub.CopyToContainer tainr archive (c.Query "path") w3).1 <;>
      cases ovw <;> cases cgid <;>
        simp [responses, Event.status?, Event.isStartContainer, Event.isCopyToContainer,
          StatusConflict, StatusOK, StatusInternalServerError, List.countP_cons, hc]

/-- C2 witness: an archive put to `demoContainer`, which was never started. -/
theorem C2_put_archive_starts_container_witness :
    demoContext.Query "path" ≠ "" ∧
    (PutArchive memRouter demoContext demoWorld).trace.countP Event.isStartContainer = 1 ∧
    StatusConflict ∉ responses (PutArchive memRouter demoContext demoWorld).trace :=
  let h := C2_put_archive_starts_container memRouter demoContext demoWorld demoWorld demoWorld
    (memRouter.kub.StartContainer demoContainer demoWorld).2 demoContainer none none
    (by decide) (by rfl) (by rfl) (by rfl)
  ⟨by decide, h.1, h.2.1⟩

/-- C2 counterexample: `demoContainer` is in the store and not running, the path
is not empty, and `PutArchive` starts the container, copies the archive into it
and answers 200 OK, not a conflict. -/
theorem C2_counterexample :
    demoContext.Query "path" ≠ "" ∧
    (memRouter.db.LoadContainer (demoContext.Param "id") demoWorld).1 = .ok demoContainer ∧
    (memRouter.kub.IsContainerRunning demoContainer demoWorld).1.1 = false ∧
    (PutArchive memRouter demoContext demoWorld).trace.countP Event.isStartContainer = 1 ∧
    (PutArchive memRouter demoContext demoWorld).trace.countP Event.isCopyToContainer = 1 ∧
    responses (PutArchive memRouter demoContext demoWorld).trace = [StatusOK] ∧
    StatusConflict ∉ responses (PutArchive memRouter demoContext demoWorld).trace :=
  ⟨by decide, by rfl, by rfl, by decide, by decide, by decide, by decide⟩

/-- C4: on every request `PutArchive` writes exactly one response; it answers
200 OK only if the container was loaded, the body was read to its end, the
container was running or `StartContainer` returned no error, and
`CopyToContainer` returned no error; and whenever a `StartContainer` or a
`CopyToContainer` call of the handler returns an error the answer is 500. -/
theorem C4_put_archive_no_false_success {σ : Type} (cr : Router σ) (c : Context) (w : σ) :
    (responses (PutArchive cr c w).trace).length = 1 ∧
    (responses (PutArchive cr c w).trace = [StatusOK] →
      ∃ tainr archive,
        (cr.db.LoadContainer (c.Param "id") w).1 = .ok tainr ∧
        c.body = .ok archive ∧
        (((cr.kub.IsContainerRunning tainr (cr.db.LoadContainer (c.Param "id") w).2).1.1 = true ∧
          (cr.kub.CopyToContainer tainr archive (c.Query "path")
            (cr.kub.IsContainerRunning tainr
              (cr.db.LoadContainer (c.Param "id") w).2).2).1 = none) ∨
         ((cr.kub.IsContainerRunning tainr (cr.db.LoadContainer (c.Param "id") w).2).1.1 = false ∧
          (cr.kub.StartContainer tainr (cr.kub.IsContainerRunning tainr
            (cr.db.LoadContainer (c.Param "id") w).2).2).1 = none ∧
          (cr.kub.CopyToContainer tainr archive (c.Query "path")
            (cr.kub.StartContainer tainr (cr.kub.IsContainerRunning tainr
              (cr.db.LoadContainer (c.Param "id") w).2).2).2).1 = none)) ∧
        Event.kubCopyToContainer tainr archive (c.Query "path") none ∈
          (PutArchive cr c w).trace) ∧
    (∀ t err, Event.kubStartContainer t (some err) ∈ (PutArchive cr c w).trace →
      responses (PutArchive cr c w).trace = [StatusInternalServerError]) ∧
    (∀ t archive path err,
      Event.kubCopyToContainer t archive path (some err) ∈ (PutArchive cr c w).trace →
      responses (PutArchive cr c w).trace = [StatusInternalServerError]) := by
  unfold PutArchive
  by_cases hp : c.Query "path" = ""
  · simp [hp, responses, Event.status?, StatusOK, StatusBadRequest]
  · simp only [hp, if_false]
    generalize (ParseBool (c.Query "noOverwriteDirNonDir")).1 = ovw
    generalize (ParseBool (c.Query "copyUIDGID")).1 = cgid
    rcases h1 : cr.db.LoadContainer (c.Param "id") w with ⟨r1, w1⟩
    cases r1 with
    | error e =>
      cases ovw <;> cases cgid <;>
        simp [responses, Event.status?, StatusOK, StatusNotFound]
    | ok tainr =>
      simp only []
      rcases h2 : cr.kub.IsContainerRunning tainr w1 with ⟨⟨running, rerr⟩, w2⟩
      rcases h3 : cr.kub.StartContainer tainr w2 with ⟨serr, w3⟩
      cases hb : c.body with
      | error e =>
        cases running <;> cases serr <;> cases ovw <;> cases cgid <;>
          simp [responses, Event.status?, StatusOK, StatusNotFound, StatusInternalServerError,
            h2, h3]
      | ok archive =>
        rcases h5 : cr.kub.CopyToContainer tainr archive (c.Query "path") w3 with ⟨cerr, w5⟩
        rcases h6 : cr.kub.CopyToContainer tainr archive (c.Query "path") w2 with ⟨cerr2, w6⟩
        cases running <;> cases serr <;> cases cerr <;> cases cerr2 <;> cases ovw <;> cases cgid <;>
          simp [responses, Event.status?, StatusOK, StatusNotFound, StatusInternalServerError,
            h2, h3, h5, h6]

/-- C4 witness: the successful copy into `demoContainer`. -/
theorem C4_put_archive_no_false_success_witness :
    responses (PutArchive memRouter demoContext demoWorld).trace = [StatusOK] ∧
    ∃ tainr archive,
      (memRouter.db.LoadContainer (demoContext.Param "id") demoWorld).1 = .ok tainr ∧
      demoContext.body = .ok archive :=
  ⟨by decide,
    ((C4_put_archive_no_false_success memRouter demoContext demoWorld).2.1 (by decide)).imp
      fun _ h => h.imp fun _ h2 => ⟨h2.1, h2.2.1⟩⟩

/-! ## Load failures (C3) -/

/-- C3, as amended: in `ContainerStart`, `ContainerDelete`, `ContainerInfo` and
(for a request with a path) `PutArchive`, when loading the container fails with
any error, NotFound or other, the one response is 404 Not Found carrying that
error, and nothing else is called. -/
theorem C3_load_failure_is_404 {σ : Type} (cr : Router σ) (c : Context) (w : σ) (err : GoError) :
    ((cr.db.GetContainer (c.Param "id") w).1 = .error err →
      (ContainerStart cr c w).trace =
        [.dbGetContainer (c.Param "id") (.error err), .httputilError StatusNotFound err] ∧
      (ContainerDelete cr c w).trace =
        [.dbGetContainer (c.Param "id") (.error err), .httputilError StatusNotFound err] ∧
      (ContainerInfo cr c w).trace =
        [.dbGetContainer (c.Param "id") (.error err), .httputilError StatusNotFound err] ∧
      responses (ContainerStart cr c w).trace = [StatusNotFound] ∧
      responses (ContainerDelete cr c w).trace = [StatusNotFound] ∧
      responses (ContainerInfo cr c w).trace = [StatusNotFound]) ∧
    (c.Query "path" ≠ "" → (cr.db.LoadContainer (c.Param "id") w).1 = .error err →
      responses (PutArchive cr c w).trace = [StatusNotFound] ∧
      (PutArchive cr c w).trace.getLast? = some (.httputilError StatusNotFound err)) := by
  constructor
  · intro h
    simp [ContainerStart, ContainerDelete, ContainerInfo, h, responses, Event.status?]
  · intro hp h
    unfold PutArchive
    simp only [hp, h, if_false]
    generalize (ParseBool (c.Query "noOverwriteDirNonDir")).1 = ovw
    generalize (ParseBool (c.Query "copyUIDGID")).1 = cgid
    cases ovw <;> cases cgid <;> simp [responses, Event.status?]

/-- C3 witness: the handlers on a store that does not hold the container. -/
theorem C3_load_failure_is_404_witness :
    (memRouter.db.GetContainer (demoContext.Param "id") emptyWorld).1 =
      .error (.notFound "container a1 not found") ∧
    responses (ContainerStart memRouter demoContext emptyWorld).trace = [StatusNotFound] ∧
    responses (ContainerDelete memRouter demoContext emptyWorld).trace = [StatusNotFound] ∧
    responses (ContainerInfo memRouter demoContext emptyWorld).trace = [StatusNotFound] ∧
    responses (PutArchive memRouter demoContext emptyWorld).trace = [StatusNotFound] :=
  let h := C3_load_failure_is_404 memRouter demoContext emptyWorld
    (.notFound "container a1 not found")
  ⟨by rfl, (h.1 (by rfl)).2.2.2.1, (h.1 (by rfl)).2.2.2.2.1, (h.1 (by rfl)).2.2.2.2.2,
    (h.2 (by decide) (by rfl)).1⟩

/-- C3 counterexample: on a store whose storage layer is failing, loading the
container fails with an error that is not NotFound, and all four handlers still
answer 404 Not Found. -/
theorem C3_counterexample :
    (memRouter.db.GetContainer (demoContext.Param "id") brokenWorld).1 =
      .error (.other "storage unavailable") ∧
    (memRouter.db.LoadContainer (demoContext.Param "id") brokenWorld).1 =
      .error (.other "storage unavailable") ∧
    GoError.isNotFound (.other "storage unavailable") = false ∧
    responses (ContainerStart memRouter demoContext brokenWorld).trace = [StatusNotFound] ∧
    responses (ContainerDelete memRouter demoContext brokenWorld).trace = [StatusNotFound] ∧
    responses (ContainerInfo memRouter demoContext brokenWorld).trace = [StatusNotFound] ∧
    responses (PutArchive memRouter demoContext brokenWorld).trace = [StatusNotFound] :=
  ⟨by rfl, by rfl, by rfl, by decide, by decide, by decide, by decide⟩

/-! ## `ContainerCreate` (C5) -/

/-- For a create request whose body decodes to a request record (not to
`null`), (1) when the store holds a network named "bridge", the record handed
to `SaveContainer` carries the request's fields and has the bridge network's ID
as its only network membership, and when that save succeeds the handler answers
201 Created with the saved container's Id; (2) when the lookup of "bridge"
fails the handler answers 500 and makes no `SaveContainer` call. -/
theorem ContainerCreate_joins_bridge {σ : Type} (cr : Router σ) (c : Context) (w : σ)
    (req : ContainerCreateRequest) (hdec : c.decoded = .ok (some req)) :
    (∀ netw w1, cr.db.GetNetworkByName "bridge" w = (.ok netw, w1) →
      ∃ tainr : Container,
        tainr.Networks = [netw.ID] ∧
        tainr.Name = req.Name ∧ tainr.Image = req.Image ∧ tainr.Cmd = req.Cmd ∧
        tainr.Env = req.Env ∧ tainr.ExposedPorts = req.ExposedPorts ∧
        tainr.Labels = req.Labels ∧ tainr.Binds = req.HostConfig.Binds ∧
        ∀ saved w2, cr.db.SaveContainer tainr w1 = (.ok saved, w2) →
          (ContainerCreate cr c w).trace =
            [.dbGetNetworkByName "bridge" (.ok netw), .dbSaveContainer tainr (.ok saved),
              .cJSON StatusCreated (.obj [("Id", .str saved.ID)])] ∧
          responses (ContainerCreate cr c w).trace = [StatusCreated] ∧
          (ContainerCreate cr c w).world = w2) ∧
    (∀ err w1, cr.db.GetNetworkByName "bridge" w = (.error err, w1) →
      responses (ContainerCreate cr c w).trace = [StatusInternalServerError] ∧
      (ContainerCreate cr c w).trace.countP Event.isSaveContainer = 0 ∧
      (ContainerCreate cr c w).world = w1) := by
  constructor
  · intro netw w1 h1
    refine ⟨Container.ConnectNetwork
        { ID := "", Name := req.Name, Image := req.Image, Cmd := req.Cmd, Env := req.Env,
          ExposedPorts := req.ExposedPorts, Labels := req.Labels,
          Binds := req.HostConfig.Binds, Networks := [], MappedPorts := [] } netw.ID,
      by simp [Container.ConnectNetwork], by simp [Container.ConnectNetwork],
      by simp [Container.ConnectNetwork], by simp [Container.ConnectNetwork],
      by simp [Container.ConnectNetwork], by simp [Container.ConnectNetwork],
      by simp [Container.ConnectNetwork], by simp [Container.ConnectNetwork], ?_⟩
    intro saved w2 h2
    simp [ContainerCreate, hdec, h1, h2, responses, Event.status?]
  · intro err w1 h1
    simp [ContainerCreate, hdec, h1, responses, Event.status?, Event.isSaveContainer]

/-- A create on the in-memory store, with and without the default network. -/
theorem ContainerCreate_joins_bridge_demo :
    responses (ContainerCreate memRouter demoContext demoWorld).trace = [StatusCreated] ∧
    responses (ContainerCreate memRouter demoContext noBridgeWorld).trace =
      [StatusInternalServerError] ∧
    (ContainerCreate memRouter demoContext noBridgeWorld).trace.countP
      Event.isSaveContainer = 0 := by
  have h := ContainerCreate_joins_bridge memRouter demoContext demoWorld _
    (show demoContext.decoded = .ok (some _) from rfl)
  have h2 := ContainerCreate_joins_bridge memRouter demoContext noBridgeWorld _
    (show demoContext.decoded = .ok (some _) from rfl)
  obtain ⟨tainr, -, -, -, -, -, -, -, -, hsave⟩ := h.1 bridgeNetwork demoWorld (by rfl)
  have hb := h2.2 (.notFound "network bridge not found") noBridgeWorld (by rfl)
  exact ⟨(hsave { tainr with ID := "a1" }
      { demoWorld with containers := demoWorld.containers ++ [{ tainr with ID := "a1" }] }
      (by rfl)).2.1, hb.1, hb.2.1⟩

/-- C5 fails on the code: the body `null` decodes without error, the store holds
the network "bridge" and its `SaveContainer` succeeds on this world, yet
`ContainerCreate` panics on the nil request: it writes no response, so no 201
Created, and hands no container to `SaveContainer`. -/
theorem C5_null_body_panics :
    nullBodyContext.decoded = .ok none ∧
    (memRouter.db.GetNetworkByName "bridge" demoWorld).1 = .ok bridgeNetwork ∧
    (memRouter.db.SaveContainer demoContainer demoWorld).1 = .ok demoContainer ∧
    (ContainerCreate memRouter nullBodyContext demoWorld).trace =
      [.panic "runtime error: invalid memory address or nil pointer dereference"] ∧
    responses (ContainerCreate memRouter nullBodyContext demoWorld).trace = [] ∧
    (ContainerCreate memRouter nullBodyContext demoWorld).trace.countP
      Event.isSaveContainer = 0 :=
  ⟨by rfl, by rfl, by rfl, by rfl, by decide, by decide⟩

/-! ## `ContainerDelete` (C6) -/

/-- After a successful delete the in-memory store no longer finds the
container. -/
theorem memDatabase_delete_get (t : Container) (w0 : MemWorld)
    (h : (memRouter.db.DeleteContainer t w0).1 = none) :
    ∃ msg, (memRouter.db.GetContainer t.ID (memRouter.db.DeleteContainer t w0).2).1 =
      .error (.notFound msg) := by
  simp only [memRouter, memDatabase] at h ⊢
  by_cases hb : w0.broken = true
  · simp [hb] at h
  · by_cases ha : (w0.containers.any fun x => x.ID == t.ID) = true
    · have hnone : List.find? (fun x => x.ID == t.ID)
          (List.filter (fun x => x.ID != t.ID) w0.containers) = none := by
        rw [List.find?_eq_none]
        intro x hx
        have := (List.mem_filter.mp hx).2
        simpa using this
      simp only [hb, ha, if_true, memFind]
      simp [hnone]
    · simp [hb, ha] at h

/-- C6: `ContainerDelete` on a container the store holds signals stop, then
calls the backend's `DeleteContainer`, then the store's; it answers 204 exactly
when both deletes return no error, and then, over a store whose successful
delete makes the identifier NotFound, a later get is NotFound; when the backend
delete fails it answers 500 without calling the store's `DeleteContainer`, and
over collaborators whose get, stop signal and backend delete leave the store's
lookups alone, a later get still returns the record. -/
theorem C6_delete_removes_both {σ : Type} (cr : Router σ) (c : Context) (w w1 w3 w4 : σ)
    (tainr : Container) (kerr derr : Option GoError)
    (hload : cr.db.GetContainer (c.Param "id") w = (.ok tainr, w1))
    (hkub : cr.kub.DeleteContainer tainr (cr.SignalStop tainr w1) = (kerr, w3))
    (hdb : cr.db.DeleteContainer tainr w3 = (derr, w4)) :
    (∀ err, kerr = some err →
      (ContainerDelete cr c w).trace =
        [.dbGetContainer (c.Param "id") (.ok tainr), .SignalStop tainr,
          .kubDeleteContainer tainr (some err),
          .httputilError StatusInternalServerError err] ∧
      (ContainerDelete cr c w).world = w3) ∧
    (kerr = none → ∀ err, derr = some err →
      (ContainerDelete cr c w).trace =
        [.dbGetContainer (c.Param "id") (.ok tainr), .SignalStop tainr,
          .kubDeleteContainer tainr none, .dbDeleteContainer tainr (some err),
          .httputilError StatusNotFound err] ∧
      (ContainerDelete cr c w).world = w4) ∧
    (kerr = none → derr = none →
      (ContainerDelete cr c w).trace =
        [.dbGetContainer (c.Param "id") (.ok tainr), .SignalStop tainr,
          .kubDeleteContainer tainr none, .dbDeleteContainer tainr none,
          .WriteHeader StatusNoContent] ∧
      (ContainerDelete cr c w).world = w4) ∧
    (responses (ContainerDelete cr c w).trace = [StatusNoContent] ↔
      kerr = none ∧ derr = none) ∧
    (kerr ≠ none →
      responses (ContainerDelete cr c w).trace = [StatusInternalServerError] ∧
      (ContainerDelete cr c w).trace.countP Event.isDbDeleteContainer = 0) ∧
    (responses (ContainerDelete cr c w).trace = [StatusNoContent] →
      tainr.ID = c.Param "id" →
      (∀ t w0, (cr.db.DeleteContainer t w0).1 = none →
        ∃ msg, (cr.db.GetContainer t.ID (cr.db.DeleteContainer t w0).2).1 =
          .error (.notFound msg)) →
      ∃ msg, (cr.db.GetContainer (c.Param "id") (ContainerDelete cr c w).world).1 =
        .error (.notFound msg)) ∧
    (kerr ≠ none →
      (∀ id w0, (cr.db.GetContainer id (cr.db.GetContainer id w0).2).1 =
        (cr.db.GetContainer id w0).1) →
      (∀ id t w0, (cr.db.GetContainer id (cr.SignalStop t w0)).1 =
        (cr.db.GetContainer id w0).1) →
      (∀ id t w0, (cr.db.GetContainer id (cr.kub.DeleteContainer t w0).2).1 =
        (cr.db.GetContainer id w0).1) →
      (cr.db.GetContainer (c.Param "id") (ContainerDelete cr c w).world).1 = .ok tainr) := by
  have hw : (ContainerDelete cr c w).world = match kerr with
      | some _ => w3
      | none => w4 := by
    cases kerr <;> cases derr <;> simp [ContainerDelete, hload, hkub, hdb]
  refine ⟨?_, ?_, ?_, ?_, ?_, ?_, ?_⟩
  · intro err he
    subst he
    simp [ContainerDelete, hload, hkub]
  · intro he err hd
    subst he
    subst hd
    simp [ContainerDelete, hload, hkub, hdb]
  · intro he hd
    subst he
    subst hd
    simp [ContainerDelete, hload, hkub, hdb]
  · cases kerr <;> cases derr <;>
      simp [ContainerDelete, hload, hkub, hdb, responses, Event.status?, StatusNoContent,
        StatusNotFound, StatusInternalServerError]
  · intro he
    cases kerr with
    | none => exact absurd rfl he
    | some err =>
      simp [ContainerDelete, hload, hkub, responses, Event.status?, Event.isDbDeleteContainer]
  · intro hresp hid hlaw
    have hboth : kerr = none ∧ derr = none := by
      cases kerr <;> cases derr <;>
        simp_all [ContainerDelete, responses, Event.status?, StatusNoContent,
          StatusNotFound, StatusInternalServerError]
    obtain ⟨hk, hd⟩ := hboth
    subst hk
    subst hd
    rw [hw]
    have h := hlaw tainr w3 (by rw [hdb])
    rw [hdb, hid] at h
    exact h
  · intro he hread hstop hframe
    cases kerr with
    | none => exact absurd rfl he
    | some err =>
      rw [hw]
      have h3 : w3 = (cr.kub.DeleteContainer tainr (cr.SignalStop tainr w1)).2 := by rw [hkub]
      have h1 : w1 = (cr.db.GetContainer (c.Param "id") w).2 := by rw [hload]
      simp only [h3, hframe, hstop, h1, hread]
      rw [hload]

/-- C6 witness: deleting `demoContainer` on a healthy cluster, and on a cluster
that refuses to delete pods. -/
theorem C6_delete_removes_both_witness :
    (responses (ContainerDelete memRouter demoContext demoWorld).trace = [StatusNoContent] ∧
      ∃ msg, (memRouter.db.GetContainer (demoContext.Param "id")
        (ContainerDelete memRouter demoContext demoWorld).world).1 = .error (.notFound msg)) ∧
    (responses (ContainerDelete memRouter demoContext stuckWorld).trace =
        [StatusInternalServerError] ∧
      (ContainerDelete memRouter demoContext stuckWorld).trace.countP
        Event.isDbDeleteContainer = 0 ∧
      (memRouter.db.GetContainer (demoContext.Param "id")
        (ContainerDelete memRouter demoContext stuckWorld).world).1 = .ok demoContainer) := by
  have h := C6_delete_removes_both memRouter demoContext demoWorld demoWorld demoWorld
    (memRouter.db.DeleteContainer demoContainer demoWorld).2 demoContainer none none
    (by rfl) (by rfl) (by rfl)
  have h2 := C6_delete_removes_both memRouter demoContext stuckWorld stuckWorld stuckWorld
    (memRouter.db.DeleteContainer demoContainer stuckWorld).2 demoContainer
    (some (.other "timeout waiting for pod removal")) none (by rfl) (by rfl) (by rfl)
  have h204 := h.2.2.2.1.2 ⟨rfl, rfl⟩
  refine ⟨⟨h204, h.2.2.2.2.2.1 h204 (by rfl) memDatabase_delete_get⟩,
    (h2.2.2.2.2.1 (by simp)).1, (h2.2.2.2.2.1 (by simp)).2,
    h2.2.2.2.2.2.2 (by simp) ?_ ?_ ?_⟩
  · intro id w0
    simp only [memRouter, memDatabase, memFind_world]
  · intro id t w0
    rfl
  · intro id t w0
    simp only [memRouter, memDatabase, memBackend]
    split
    · rfl
    · exact memFind_result id _ _ rfl rfl

/-! ## `ContainerInfo` (C7) -/

/-- C7: for a container the store holds, whatever `GetContainerStatus` and
`GetNetworksByIDs` return, `ContainerInfo` answers 200 OK and nothing else;
`State.Running` is true exactly when the status map's "Running" entry is the
string "running", so it is false for every status map without that entry, the
empty map of an absent resource included; and `State.Error` is the text of the
status error followed by the text of the network-lookup error. -/
theorem C7_info_never_raises {σ : Type} (cr : Router σ) (c : Context) (w w1 w2 w3 : σ)
    (tainr : Container) (status : List (String × String)) (serr nerr : Option GoError)
    (netws : List Network)
    (hload : cr.db.GetContainer (c.Param "id") w = (.ok tainr, w1))
    (hstatus : cr.kub.GetContainerStatus tainr w1 = ((status, serr), w2))
    (hnetws : cr.db.GetNetworksByIDs tainr.Networks w2 = ((netws, nerr), w3)) :
    ∃ body : H,
      (ContainerInfo cr c w).trace =
        [.dbGetContainer (c.Param "id") (.ok tainr),
          .kubGetContainerStatus tainr status serr,
          .dbGetNetworksByIDs tainr.Networks netws nerr,
          .cJSON StatusOK (.obj body)] ∧
      responses (ContainerInfo cr c w).trace = [StatusOK] ∧
      stateField body "Running" = some (.bool (lookupString status "Running" == "running")) ∧
      (stateField body "Running" = some (.bool true) ↔
        lookupString status "Running" = "running") ∧
      (lookupString status "Running" ≠ "running" →
        stateField body "Running" = some (.bool false)) ∧
      (status = [] → stateField body "Running" = some (.bool false)) ∧
      stateField body "Error" = some (.str (errorText serr ++ errorText nerr)) := by
  refine ⟨(getContainerInfo cr tainr true w1).1, ?_, ?_, ?_, ?_, ?_, ?_, ?_⟩
  · simp [ContainerInfo, hload, getContainerInfo, hstatus, hnetws]
  · simp [ContainerInfo, hload, getContainerInfo, hstatus, hnetws, responses, Event.status?]
  · simp [getContainerInfo, hstatus, hnetws, stateField, H.set, H.get?, JSON.field?]
  · simp [getContainerInfo, hstatus, hnetws, stateField, H.set, H.get?, JSON.field?]
  · intro hs
    simp [getContainerInfo, hstatus, hnetws, stateField, H.set, H.get?, JSON.field?, hs]
  · intro hs
    subst hs
    simp [getContainerInfo, hstatus, hnetws, stateField, H.set, H.get?, JSON.field?,
      lookupString]
  · cases serr <;> cases nerr <;>
      simp [getContainerInfo, hstatus, hnetws, stateField, H.set, H.get?, JSON.field?,
        errorText]

/-- C7 witness: the description of `demoContainer`, which has no pod. -/
theorem C7_info_never_raises_witness :
    ∃ body : H,
      responses (ContainerInfo memRouter demoContext demoWorld).trace = [StatusOK] ∧
      stateField body "Running" = some (.bool false) ∧
      stateField body "Error" = some (.str "pod a1 not found") :=
  (C7_info_never_raises memRouter demoContext demoWorld demoWorld demoWorld demoWorld
    demoContainer [] (some (.notFound "pod a1 not found")) none [bridgeNetwork]
    (by rfl) (by rfl) (by rfl)).imp
    fun _ h => ⟨h.2.1, h.2.2.2.2.2.1 rfl, h.2.2.2.2.2.2⟩

/-! ## `getNetworkSettingsPorts` (C10) -/

/-- The digit character of `k < 10` has the value `k`. -/
theorem digitValue_digitChar (k : Nat) (hk : k < 10) : digitValue (Nat.digitChar k) = k := by
  interval_cases k <;> rfl

/-- No digit character is the minus sign. -/
theorem digitChar_ne_minus (k : Nat) (hk : k < 10) : Nat.digitChar k ≠ '-' := by
  interval_cases k <;> decide

/-- With enough fuel `Nat.toDigitsCore` puts in front of `ds` a non-empty list of digits that denotes `n`. -/
theorem toDigitsCore_spec (fuel : Nat) : ∀ (n : Nat) (ds : List Char), n < fuel →
    ∃ l, Nat.toDigitsCore 10 fuel n ds = l ++ ds ∧ digitsValue 0 l = n ∧
      l ≠ [] ∧ ∀ ch ∈ l, ch ≠ '-' := by
  induction fuel with
  | zero => intro n ds h; omega
  | succ fuel ih =>
    intro n ds h
    have hmod : n % 10 < 10 := Nat.mod_lt _ (by decide)
    unfold Nat.toDigitsCore
    by_cases h0 : n / 10 = 0
    · refine ⟨[Nat.digitChar (n % 10)], by simp [h0], ?_, by simp, ?_⟩
      · have hn : n < 10 := by omega
        have hself : n % 10 = n := Nat.mod_eq_of_lt hn
        simp [digitsValue, hself, digitValue_digitChar n hn]
      · intro ch hch
        simp at hch
        subst hch
        exact digitChar_ne_minus _ hmod
    · have hlt : n / 10 < fuel := by omega
      obtain ⟨l, hl, hv, _, hm⟩ := ih (n / 10) (Nat.digitChar (n % 10) :: ds) hlt
      refine ⟨l ++ [Nat.digitChar (n % 10)], by simp [h0, hl], ?_, by simp, ?_⟩
      · have hv2 : List.foldl (fun a ch => 10 * a + digitValue ch) 0 l = n / 10 := hv
        simp [digitsValue, List.foldl_append, hv2, digitValue_digitChar _ hmod]
        omega
      · intro ch hch
        rcases List.mem_append.mp hch with h1 | h1
        · exact hm ch h1
        · simp at h1
          subst h1
          exact digitChar_ne_minus _ hmod

/-- The decimal digits of `n` denote `n`, are not empty and hold no minus sign. -/
theorem toDigits_spec (n : Nat) :
    digitsValue 0 (Nat.toDigits 10 n) = n ∧ Nat.toDigits 10 n ≠ [] ∧
      ∀ ch ∈ Nat.toDigits 10 n, ch ≠ '-' := by
  obtain ⟨l, hl, hv, hne, hm⟩ := toDigitsCore_spec (n + 1) n [] (Nat.lt_succ_self n)
  have : Nat.toDigits 10 n = l := by simp [Nat.toDigits, hl]
  rw [this]
  exact ⟨hv, hne, hm⟩

/-- The decimal rendering of natural numbers is injective. -/
theorem natRepr_injective : Function.Injective Nat.repr := by
  intro a b h
  have h1 : Nat.toDigits 10 a = Nat.toDigits 10 b := by
    have := congrArg String.data h
    simpa [Nat.repr, List.asString] using this
  have := (toDigits_spec a).1
  rw [h1, (toDigits_spec b).1] at this
  exact this.symm

/-- The decimal rendering of integers (`%d`) is injective. -/
theorem intToString_injective : Function.Injective (toString : Int → String) := by
  intro a b h
  cases a with
  | ofNat m =>
    cases b with
    | ofNat k =>
      have : Nat.repr m = Nat.repr k := h
      rw [natRepr_injective this]
    | negSucc k =>
      exfalso
      have h1 : Nat.repr m = "-" ++ Nat.repr (k + 1) := h
      have h2 := congrArg String.data h1
      simp [Nat.repr, List.asString] at h2
      have hm := (toDigits_spec m).2.2
      rw [h2] at hm
      exact hm '-' (by simp) rfl
  | negSucc m =>
    cases b with
    | ofNat k =>
      exfalso
      have h1 : "-" ++ Nat.repr (m + 1) = Nat.repr k := h
      have h2 := congrArg String.data h1
      simp [Nat.repr, List.asString] at h2
      have hm := (toDigits_spec k).2.2
      rw [← h2] at hm
      exact hm '-' (by simp) rfl
    | negSucc k =>
      have h1 : "-" ++ Nat.repr (m + 1) = "-" ++ Nat.repr (k + 1) := h
      have h2 := congrArg String.data h1
      simp only [String.data_append, List.append_cancel_left_eq] at h2
      have h3 : Nat.repr (m + 1) = Nat.repr (k + 1) := String.ext h2
      have := natRepr_injective h3
      have : m = k := by omega
      rw [this]

/-- Different container ports have different keys. -/
theorem portKey_injective : Function.Injective portKey := by
  intro a b h
  have h2 := congrArg String.data h
  simp only [portKey, String.data_append, List.append_cancel_right_eq] at h2
  exact intToString_injective (String.ext h2)

/-- The keys after a map assignment. -/
theorem keys_set (h : H) (k : String) (v : JSON) :
    H.keys (H.set h k v) = if k ∈ H.keys h then H.keys h else H.keys h ++ [k] := by
  induction h with
  | nil => simp [H.set, H.keys]
  | cons p rest ih =>
    obtain ⟨k', v'⟩ := p
    by_cases hk : k' = k
    · simp [H.set, H.keys, hk]
    · have hk2 : ¬ k = k' := fun e => hk e.symm
      simp only [H.keys] at ih
      simp only [H.set, H.keys, hk, if_false, List.map_cons, List.mem_cons, hk2, false_or, ih]
      split <;> simp

/-- An entry of a map after an assignment is the assigned one or an old one. -/
theorem mem_set (h : H) (k : String) (v : JSON) (p : String × JSON) (hp : p ∈ H.set h k v) :
    p = (k, v) ∨ p ∈ h := by
  induction h with
  | nil => simp [H.set] at hp; exact Or.inl hp
  | cons q rest ih =>
    obtain ⟨k', v'⟩ := q
    by_cases hk : k' = k
    · simp [H.set, hk] at hp
      rcases hp with hp | hp
      · exact Or.inl hp
      · exact Or.inr (List.mem_cons_of_mem _ hp)
    · simp [H.set, hk] at hp
      rcases hp with hp | hp
      · exact Or.inr (by simp [hp])
      · rcases ih hp with h1 | h1
        · exact Or.inl h1
        · exact Or.inr (List.mem_cons_of_mem _ h1)

/-- The keys after the loop: those before it and the keys of the container ports. -/
theorem portsFrom_keys (mp : List (Int × Int)) : ∀ (acc : H) (k : String),
    k ∈ H.keys (portsFrom acc mp) ↔ k ∈ H.keys acc ∨ ∃ sd ∈ mp, k = portKey sd.2 := by
  induction mp with
  | nil => intro acc k; simp [portsFrom]
  | cons sd rest ih =>
    intro acc k
    have hstep : portsFrom acc (sd :: rest) =
        portsFrom (H.set acc (portKey sd.2) (portBinding sd.1)) rest := rfl
    rw [hstep, ih, keys_set]
    by_cases hin : portKey sd.2 ∈ H.keys acc
    · simp only [hin, if_true, List.mem_cons, exists_eq_or_imp]
      constructor
      · rintro (h | h)
        · exact Or.inl h
        · exact Or.inr (Or.inr h)
      · rintro (h | h | h)
        · exact Or.inl h
        · exact Or.inl (h ▸ hin)
        · exact Or.inr h
    · simp only [hin, if_false, List.mem_append, List.mem_singleton, List.mem_cons,
        exists_eq_or_imp]
      tauto

/-- The loop keeps the keys of the map distinct. -/
theorem portsFrom_nodup (mp : List (Int × Int)) : ∀ acc : H,
    (H.keys acc).Nodup → (H.keys (portsFrom acc mp)).Nodup := by
  induction mp with
  | nil => intro acc h; simpa [portsFrom] using h
  | cons sd rest ih =>
    intro acc h
    have hstep : portsFrom acc (sd :: rest) =
        portsFrom (H.set acc (portKey sd.2) (portBinding sd.1)) rest := rfl
    rw [hstep]
    apply ih
    rw [keys_set]
    split
    · exact h
    · rename_i hin
      exact List.Nodup.append h (by simp) (by simpa using hin)

/-- An entry after the loop was there before it or is the binding of a mapped port. -/
theorem portsFrom_entries (mp : List (Int × Int)) : ∀ (acc : H) (p : String × JSON),
    p ∈ portsFrom acc mp → p ∈ acc ∨ ∃ sd ∈ mp, p = (portKey sd.2, portBinding sd.1) := by
  induction mp with
  | nil => intro acc p h; exact Or.inl (by simpa [portsFrom] using h)
  | cons sd rest ih =>
    intro acc p h
    have hstep : portsFrom acc (sd :: rest) =
        portsFrom (H.set acc (portKey sd.2) (portBinding sd.1)) rest := rfl
    rw [hstep] at h
    rcases ih _ p h with h1 | ⟨sd', hsd', hp⟩
    · rcases mem_set _ _ _ _ h1 with h2 | h2
      · exact Or.inr ⟨sd, by simp, h2⟩
      · exact Or.inl h2
    · exact Or.inr ⟨sd', List.mem_cons_of_mem _ hsd', hp⟩

/-- The loop from the empty map yields one entry per distinct key. -/
theorem ports_length (mp : List (Int × Int)) :
    (portsFrom [] mp).length = ((mp.map fun sd => portKey sd.2).dedup).length := by
  have hperm : (H.keys (portsFrom [] mp)).Perm ((mp.map fun sd => portKey sd.2).dedup) := by
    apply (List.perm_ext_iff_of_nodup (portsFrom_nodup mp [] (by simp [H.keys]))
      (List.nodup_dedup _)).2
    intro k
    rw [portsFrom_keys, List.mem_dedup]
    simp [H.keys, eq_comm]
  have := hperm.length_eq
  simpa [H.keys] using this

/-- C10: the keys of `getNetworkSettingsPorts` are exactly the strings
"<dst>/tcp" for the container ports `dst` of `MappedPorts`, each occurring once;
every entry holds the single binding with HostIp "localhost" and the decimal
rendering of an external port mapped to that container port; the result has as
many entries as `MappedPorts` when that map is injective, strictly fewer when
two external ports lead to the same container port, and none when it is
empty. -/
theorem C10_network_settings_ports (tainr : Container) :
    (∀ k, k ∈ H.keys (getNetworkSettingsPorts tainr) ↔
      ∃ sd ∈ tainr.MappedPorts, k = toString sd.2 ++ "/tcp") ∧
    (H.keys (getNetworkSettingsPorts tainr)).Nodup ∧
    (∀ k v, (k, v) ∈ getNetworkSettingsPorts tainr →
      ∃ sd ∈ tainr.MappedPorts, k = toString sd.2 ++ "/tcp" ∧
        v = .arr [.obj [("HostIp", .str "localhost"), ("HostPort", .str (toString sd.1))]]) ∧
    ((tainr.MappedPorts.map Prod.fst).Nodup →
      (∀ sd1 ∈ tainr.MappedPorts, ∀ sd2 ∈ tainr.MappedPorts, sd1.2 = sd2.2 → sd1.1 = sd2.1) →
      (getNetworkSettingsPorts tainr).length = tainr.MappedPorts.length) ∧
    (∀ sd1 ∈ tainr.MappedPorts, ∀ sd2 ∈ tainr.MappedPorts, sd1.1 ≠ sd2.1 → sd1.2 = sd2.2 →
      (getNetworkSettingsPorts tainr).length < tainr.MappedPorts.length) ∧
    (tainr.MappedPorts = [] → getNetworkSettingsPorts tainr = []) := by
  have hdef : getNetworkSettingsPorts tainr = portsFrom [] tainr.MappedPorts := rfl
  refine ⟨?_, ?_, ?_, ?_, ?_, ?_⟩
  · intro k
    rw [hdef, portsFrom_keys]
    simp [H.keys, portKey]
  · rw [hdef]
    exact portsFrom_nodup _ [] (by simp [H.keys])
  · intro k v hkv
    rw [hdef] at hkv
    rcases portsFrom_entries _ _ _ hkv with h | ⟨sd, hsd, hp⟩
    · simp at h
    · exact ⟨sd, hsd, by simpa [portKey, portBinding] using hp⟩
  · intro hmap hinj
    rw [hdef, ports_length]
    have hnd : (tainr.MappedPorts.map fun sd => portKey sd.2).Nodup := by
      apply List.Nodup.map_on _ (List.Nodup.of_map _ hmap)
      intro x hx y hy hxy
      have h2 : x.2 = y.2 := portKey_injective hxy
      exact Prod.ext (hinj x hx y hy h2) h2
    rw [List.dedup_eq_self.2 hnd, List.length_map]
  · intro sd1 h1 sd2 h2 hne heq
    rw [hdef, ports_length]
    have hnd : ¬ (tainr.MappedPorts.map fun sd => portKey sd.2).Nodup := by
      intro hnd
      have := List.inj_on_of_nodup_map hnd h1 h2 (by simp [heq])
      exact hne (by rw [this])
    have hle := (List.dedup_sublist (tainr.MappedPorts.map fun sd => portKey sd.2)).length_le
    have hneq : ((tainr.MappedPorts.map fun sd => portKey sd.2).dedup).length ≠
        (tainr.MappedPorts.map fun sd => portKey sd.2).length := by
      intro he
      exact hnd (List.dedup_eq_self.1 ((List.dedup_sublist _).eq_of_length he))
    rw [List.length_map] at hle hneq
    omega
  · intro h
    simp [getNetworkSettingsPorts, h]

/-- C10 witness: one mapped port gives one entry; two external ports on one
container port give one entry as well. -/
theorem C10_network_settings_ports_witness :
    (getNetworkSettingsPorts demoContainer).length = demoContainer.MappedPorts.length ∧
    (getNetworkSettingsPorts sharedPortContainer).length <
      sharedPortContainer.MappedPorts.length :=
  ⟨(C10_network_settings_ports demoContainer).2.2.2.1 (by decide) (by decide),
    (C10_network_settings_ports sharedPortContainer).2.2.2.2.1 (30080, 80) (by decide)
      (30081, 80) (by decide) (by decide) rfl⟩

end Kubedock
